import Mathlib

/-!
Shallow embedding of the wifi-monitor application (Electron main process
`electron/main.ts` and renderer `src/App.tsx`).

External system libraries (`systeminformation`, `node-wifi`, `local-devices`)
are modelled as opaque environments: each fallible asynchronous call is a
field of an environment record of type `Except Unit α` (`.error ()` models a
rejected promise / thrown error).  JavaScript numbers are modelled as `ℚ`,
machine-opaque time stamps as `Nat`.
-/

namespace WifiMonitor

/-- A network interface record as consumed from `si.networkInterfaces()`:
only the fields the handler reads (`iface`, `operstate`, `ip4`, `type`,
`speed`, `mac`).  `speed` may be `null` in JS, hence `Option ℚ`. -/
structure NetIface where
  iface : String
  operstate : String
  ip4 : String
  type : String
  speed : Option ℚ
  mac : String
deriving DecidableEq, Repr

/-- A wifi connection record from `wifi.getCurrentConnections()`: the three
fields the handler reads.  An absent SSID is modelled as the empty string
(falsy in JS, triggering the `|| iface.iface` fallback). -/
structure WifiConn where
  ssid : String
  signal_level : ℚ
  security : String
deriving DecidableEq, Repr

/-- The JS object returned by the `get-active-connection` handler.  The
"no connection" literal in the source carries only the first five fields;
the remaining fields are absent there, modelled by `Option` defaults. -/
structure Snapshot where
  ssid : String
  type : String
  status : String
  ip4 : String
  speed : ℚ
  signal_level : Option ℚ := none
  security : Option String := none
  mac : Option String := none
  iface : Option String := none
deriving DecidableEq, Repr

/-- The literal returned when no interface qualifies
(`main.ts` lines 68-76). -/
def noConnectionSnapshot : Snapshot :=
  { ssid := "No Connection", type := "none", status := "down",
    ip4 := "0.0.0.0", speed := 0 }

/-- Environment of the `get-active-connection` handler: the outcomes of the
three external async calls it may make. -/
structure ConnEnv where
  networkInterfaceDefault : Except Unit String
  networkInterfaces : Except Unit (List NetIface)
  getCurrentConnections : Except Unit (List WifiConn)

/-- `allInterfaces.find(i => i.iface === defaultIfaceName) ||
allInterfaces.find(i => i.operstate === 'up' && i.ip4 !== '')`
(`main.ts` line 66). -/
def findActiveIface (defaultIfaceName : String) (allInterfaces : List NetIface) :
    Option NetIface :=
  match allInterfaces.find? (fun i => i.iface == defaultIfaceName) with
  | some i => some i
  | none => allInterfaces.find? (fun i => i.operstate == "up" && i.ip4 != "")

/-- The wireless-enrichment block (`main.ts` lines 91-101): on success with a
non-empty connection list the SSID, signal and security fields are
overwritten (SSID falling back to the interface name when empty); on failure
of the secondary query, or an empty list, the snapshot is left unchanged. -/
def wifiEnrich (iface : NetIface) (stats : Snapshot)
    (connectionsResult : Except Unit (List WifiConn)) : Snapshot :=
  match connectionsResult with
  | .error _ => stats
  | .ok connections =>
    match connections with
    | [] => stats
    | c :: _ =>
      { stats with
        ssid := if c.ssid == "" then iface.iface else c.ssid,
        signal_level := some c.signal_level,
        security := some c.security }

/-- The `get-active-connection` handler (`main.ts` lines 60-111).  Any error
of the primary queries is caught and collapses to `null` (`none`). -/
def getActiveConnection (env : ConnEnv) : Option Snapshot :=
  match env.networkInterfaceDefault, env.networkInterfaces with
  | .ok defaultIfaceName, .ok allInterfaces =>
    match findActiveIface defaultIfaceName allInterfaces with
    | none => some noConnectionSnapshot
    | some iface =>
      let stats : Snapshot :=
        { ssid := iface.iface, signal_level := some 100, security := some "N/A",
          type := iface.type, speed := iface.speed.getD 0,
          status := iface.operstate, ip4 := iface.ip4,
          mac := some iface.mac, iface := some iface.iface }
      if iface.type == "wireless" then
        some (wifiEnrich iface stats env.getCurrentConnections)
      else
        some { stats with ssid := "Ethernet Connection" }
  | _, _ => none

/-- C4: when both primary queries succeed but no interface matches the
default name and no interface is up with a non-empty address, the handler
returns the well-defined disconnected snapshot with name "No Connection",
medium type none, operational state down, ipv4 "0.0.0.0" and link speed 0 —
never null. -/
theorem C4_no_interface_disconnected_snapshot
    (env : ConnEnv) (dn : String) (all : List NetIface)
    (hdn : env.networkInterfaceDefault = .ok dn)
    (hall : env.networkInterfaces = .ok all)
    (hname : ∀ i ∈ all, ¬ i.iface = dn)
    (hup : ∀ i ∈ all, ¬ (i.operstate = "up" ∧ ¬ i.ip4 = "")) :
    getActiveConnection env =
      some { ssid := "No Connection", type := "none", status := "down",
             ip4 := "0.0.0.0", speed := 0 } := by
  have h1 : all.find? (fun i => i.iface == dn) = none := by
    rw [List.find?_eq_none]
    intro i hi
    simpa using hname i hi
  have h2 : all.find? (fun i => i.operstate == "up" && i.ip4 != "") = none := by
    rw [List.find?_eq_none]
    intro i hi
    have := hup i hi
    simp only [Bool.and_eq_true, beq_iff_eq, bne_iff_ne, ne_eq]
    tauto
  simp [getActiveConnection, hdn, hall, findActiveIface, h1, h2,
    noConnectionSnapshot]

/-- C4 witness: an environment with an empty interface list. -/
theorem C4_no_interface_disconnected_snapshot_witness :
    getActiveConnection
      ⟨.ok "eth0", .ok [], .error ()⟩ =
      some { ssid := "No Connection", type := "none", status := "down",
             ip4 := "0.0.0.0", speed := 0 } :=
  C4_no_interface_disconnected_snapshot ⟨.ok "eth0", .ok [], .error ()⟩
    "eth0" [] rfl rfl (by simp) (by simp)

/-- C5: on a wireless interface, when the secondary wifi query fails, the
handler still returns a non-null snapshot whose SSID is the interface name
and whose signal (100) and security ("N/A") fields keep their defaults. -/
theorem C5_wifi_failure_falls_back
    (env : ConnEnv) (dn : String) (all : List NetIface) (iface : NetIface)
    (hdn : env.networkInterfaceDefault = .ok dn)
    (hall : env.networkInterfaces = .ok all)
    (hfind : findActiveIface dn all = some iface)
    (hwl : iface.type = "wireless")
    (hwifi : env.getCurrentConnections = .error ()) :
    getActiveConnection env =
      some { ssid := iface.iface, signal_level := some 100,
             security := some "N/A", type := iface.type,
             speed := iface.speed.getD 0, status := iface.operstate,
             ip4 := iface.ip4, mac := some iface.mac,
             iface := some iface.iface } := by
  simp [getActiveConnection, hdn, hall, hfind, hwl, hwifi, wifiEnrich]

/-- C5 witness: a concrete wireless interface with a failing wifi query. -/
theorem C5_wifi_failure_falls_back_witness :
    getActiveConnection
      ⟨.ok "wlan0",
       .ok [⟨"wlan0", "up", "192.168.1.7", "wireless", some 300, "aa:bb"⟩],
       .error ()⟩ =
      some { ssid := "wlan0", signal_level := some 100,
             security := some "N/A", type := "wireless", speed := 300,
             status := "up", ip4 := "192.168.1.7", mac := some "aa:bb",
             iface := some "wlan0" } :=
  C5_wifi_failure_falls_back _ "wlan0"
    [⟨"wlan0", "up", "192.168.1.7", "wireless", some 300, "aa:bb"⟩]
    ⟨"wlan0", "up", "192.168.1.7", "wireless", some 300, "aa:bb"⟩
    rfl rfl (by decide) rfl rfl

/-- C10: when the selected interface is not wireless, the returned
snapshot's SSID field is the fixed string "Ethernet Connection", not the
interface name. -/
theorem C10_ethernet_ssid
    (env : ConnEnv) (dn : String) (all : List NetIface) (iface : NetIface)
    (hdn : env.networkInterfaceDefault = .ok dn)
    (hall : env.networkInterfaces = .ok all)
    (hfind : findActiveIface dn all = some iface)
    (hwl : ¬ iface.type = "wireless") :
    getActiveConnection env =
      some { ssid := "Ethernet Connection", signal_level := some 100,
             security := some "N/A", type := iface.type,
             speed := iface.speed.getD 0, status := iface.operstate,
             ip4 := iface.ip4, mac := some iface.mac,
             iface := some iface.iface } := by
  have ht : (iface.type == "wireless") = false := by
    simpa using hwl
  simp [getActiveConnection, hdn, hall, hfind, ht]

/-- C10 witness: a concrete wired interface. -/
theorem C10_ethernet_ssid_witness :
    getActiveConnection
      ⟨.ok "eth0",
       .ok [⟨"eth0", "up", "10.0.0.2", "wired", none, "cc:dd"⟩],
       .error ()⟩ =
      some { ssid := "Ethernet Connection", signal_level := some 100,
             security := some "N/A", type := "wired", speed := 0,
             status := "up", ip4 := "10.0.0.2", mac := some "cc:dd",
             iface := some "eth0" } :=
  C10_ethernet_ssid _ "eth0"
    [⟨"eth0", "up", "10.0.0.2", "wired", none, "cc:dd"⟩]
    ⟨"eth0", "up", "10.0.0.2", "wired", none, "cc:dd"⟩
    rfl rfl (by decide) (by decide)

/-- A LAN device record as returned by `local-devices` and consumed by the
renderer's `Device` interface. -/
structure DeviceRecord where
  name : String
  ip : String
  mac : String
deriving DecidableEq, Repr

/-- The hard timeout raced against device discovery (`main.ts` line 122). -/
def scanTimeoutMs : Nat := 15000

/-- Behaviour of one `find()` call: it resolves at time `t` with a device
list, rejects, or hangs forever. -/
inductive FindOutcome where
  | resolved (t : Nat) (devices : List DeviceRecord)
  | rejected
  | hangs
deriving DecidableEq, Repr

/-- `Promise.race([find(), timeout(15000)])` (`main.ts` lines 120-123): the
discovery result wins when it settles within the timeout; a rejection, a
hang, or a resolution after the deadline makes the race reject. -/
def raceFindTimeout (o : FindOutcome) : Except Unit (List DeviceRecord) :=
  match o with
  | .resolved t devices => if t ≤ scanTimeoutMs then .ok devices else .error ()
  | .rejected => .error ()
  | .hangs => .error ()

/-- The `get-local-devices` handler (`main.ts` lines 113-131) as a function
of the guard value at entry and the race outcome: returns the device list
(or `[]` on any caught error) together with the value of `isScanning` when
the handler returns.  The `finally` block clears the guard on every exit
path of the scan body. -/
def getLocalDevices (isScanning : Bool) (o : FindOutcome) :
    List DeviceRecord × Bool :=
  if isScanning then ([], isScanning)
  else
    match raceFindTimeout o with
    | .ok devices => (devices, false)
    | .error _ => ([], false)

/-- C1: when a scan actually runs (guard clear at entry), the guard is false
immediately after the handler completes for every outcome of the race, and
a discovery error, a hang, or a resolution exceeding the 15000 ms timeout
yields the empty list. -/
theorem C1_scan_guard_released (o : FindOutcome) :
    (getLocalDevices false o).2 = false ∧
    (raceFindTimeout o = .error () → (getLocalDevices false o).1 = []) ∧
    (∀ t devices, o = .resolved t devices → scanTimeoutMs < t →
      (getLocalDevices false o).1 = []) := by
  refine ⟨?_, ?_, ?_⟩
  · cases o with
    | resolved t devices =>
      simp only [getLocalDevices, raceFindTimeout, Bool.false_eq_true,
        if_false]
      split <;> rfl
    | rejected => rfl
    | hangs => rfl
  · intro herr
    simp [getLocalDevices, herr]
  · intro t devices ho ht
    subst ho
    have : raceFindTimeout (.resolved t devices) = .error () := by
      simp [raceFindTimeout, Nat.not_le.mpr ht]
    simp [getLocalDevices, this]

/-- C1 witness: a discovery call that resolves only after 20000 ms yields
`[]` with the guard released. -/
theorem C1_scan_guard_released_witness :
    (getLocalDevices false (.resolved 20000 [⟨"pc", "10.0.0.9", "ee:ff"⟩])).2
      = false ∧
    (getLocalDevices false (.resolved 20000 [⟨"pc", "10.0.0.9", "ee:ff"⟩])).1
      = [] :=
  ⟨(C1_scan_guard_released (.resolved 20000 [⟨"pc", "10.0.0.9", "ee:ff"⟩])).1,
   (C1_scan_guard_released
      (.resolved 20000 [⟨"pc", "10.0.0.9", "ee:ff"⟩])).2.2
     20000 [⟨"pc", "10.0.0.9", "ee:ff"⟩] rfl (by decide)⟩

/-- State of the coordinator's scan machinery: the `isScanning` guard
(`main.ts` line 113) and the number of handler scans currently between
guard acquisition and guard release. -/
structure ScanSys where
  isScanning : Bool
  active : Nat
deriving DecidableEq, Repr

/-- Events at the coordinator: a `get-local-devices` request arrives, or
the race of the active scan settles (running the `finally` block). -/
inductive ScanEv where
  | request
  | settle (r : Except Unit (List DeviceRecord))
deriving Repr

/-- One step of the coordinator.  A request while the guard is set returns
`[]` immediately and leaves the state unchanged (no discovery started);
otherwise the guard is set and a scan becomes active.  A settle event with
no active scan cannot occur and is a no-op. -/
def scanStep (s : ScanSys) (e : ScanEv) : ScanSys × Option (List DeviceRecord) :=
  match e with
  | .request =>
    if s.isScanning then (s, some [])
    else ({ isScanning := true, active := s.active + 1 }, none)
  | .settle r =>
    if s.active = 0 then (s, none)
    else ({ isScanning := false, active := s.active - 1 },
          some (match r with | .ok devices => devices | .error _ => []))

/-- Run a sequence of coordinator events. -/
def scanRun (tr : List ScanEv) (s : ScanSys) : ScanSys :=
  tr.foldl (fun s e => (scanStep s e).1) s

/-- The coordinator's initial state: guard clear, no scan active. -/
def scanInit : ScanSys := { isScanning := false, active := 0 }

/-- Invariant tying the guard to the number of active scans. -/
def scanInv (s : ScanSys) : Prop :=
  s.active ≤ 1 ∧ (s.isScanning = true ↔ s.active = 1)

lemma scanInv_step (s : ScanSys) (e : ScanEv) (h : scanInv s) :
    scanInv (scanStep s e).1 := by
  obtain ⟨hle, hiff⟩ := h
  cases e with
  | request =>
    by_cases hs : s.isScanning = true
    · simpa [scanStep, hs] using ⟨hle, hiff⟩
    · have h0 : s.active = 0 := by
        rcases Nat.lt_or_ge s.active 1 with h1 | h1
        · omega
        · exact absurd (hiff.mpr (by omega)) hs
      have hs' : s.isScanning = false := by
        cases hb : s.isScanning
        · rfl
        · exact absurd hb hs
      simp [scanStep, hs', scanInv, h0]
  | settle r =>
    by_cases h0 : s.active = 0
    · simpa [scanStep, h0] using ⟨hle, hiff⟩
    · simp only [scanStep, h0, if_false]
      constructor
      · simp; omega
      · simp; omega

lemma scanInv_run (tr : List ScanEv) (s : ScanSys) (h : scanInv s) :
    scanInv (scanRun tr s) := by
  induction tr generalizing s with
  | nil => simpa [scanRun] using h
  | cons e tr ih =>
    have hstep := scanInv_step s e h
    simpa [scanRun, List.foldl_cons] using ih _ hstep

/-- C2: a request that arrives while the guard is set returns `[]`
immediately with the state unchanged — in particular no new discovery is
started — and along every event sequence from the initial state at most one
scan is ever active: two device scans are never in flight at once. -/
theorem C2_concurrent_scan_coalesced :
    (∀ s : ScanSys, s.isScanning = true →
      scanStep s .request = (s, some [])) ∧
    (∀ tr : List ScanEv, (scanRun tr scanInit).active ≤ 1) := by
  constructor
  · intro s hs
    simp [scanStep, hs]
  · intro tr
    exact (scanInv_run tr scanInit ⟨by simp [scanInit], by simp [scanInit]⟩).1

/-- C2 witness: with the guard set and one scan active, a request returns
`[]` immediately and leaves the state unchanged; the invariant holds on a
concrete trace. -/
theorem C2_concurrent_scan_coalesced_witness :
    scanStep ⟨true, 1⟩ .request = (⟨true, 1⟩, some []) ∧
    (scanRun [.request, .request, .settle (.ok [])] scanInit).active ≤ 1 :=
  ⟨C2_concurrent_scan_coalesced.1 ⟨true, 1⟩ rfl,
   C2_concurrent_scan_coalesced.2 [.request, .request, .settle (.ok [])]⟩

/-- JavaScript `parseFloat(x.toFixed(1))` for non-negative rationals:
round to one decimal place (half away from zero, which for non-negative
input is half up). -/
def jsToFixed1 (q : ℚ) : ℚ := ((Int.floor (q * 10 + 1/2) : ℤ) : ℚ) / 10

/-- JavaScript `Math.round`: floor of the input plus one half. -/
def jsRound (q : ℚ) : ℤ := Int.floor (q + 1/2)

/-- The renderer's `formatSpeed` (`App.tsx` lines 103-109). -/
def formatSpeed (bytesPerSec : ℚ) : ℚ × String :=
  if bytesPerSec = 0 then (0, "B/s")
  else
    let kbps := bytesPerSec / 1024
    if kbps < 1000 then (jsToFixed1 kbps, "KB/s")
    else (jsToFixed1 (kbps / 1024), "MB/s")

/-- C7: rate formatting on non-negative input — 0 maps to `{0, "B/s"}`, a
nonzero input below 1000 KB/s maps to its KB/s value rounded to one decimal
place, anything else to its MB/s value rounded to one decimal place; in
particular 500×1024 maps to `{500.0, "KB/s"}` and 1500×1024 to
`{1.5, "MB/s"}`. -/
theorem C7_format_speed (b : ℚ) (hb : 0 ≤ b) :
    (b = 0 → formatSpeed b = (0, "B/s")) ∧
    (¬ b = 0 → b / 1024 < 1000 →
      formatSpeed b = (jsToFixed1 (b / 1024), "KB/s")) ∧
    (1000 ≤ b / 1024 →
      formatSpeed b = (jsToFixed1 (b / 1024 / 1024), "MB/s")) ∧
    formatSpeed (500 * 1024) = (500, "KB/s") ∧
    formatSpeed (1500 * 1024) = (1.5, "MB/s") ∧
    formatSpeed 0 = (0, "B/s") := by
  refine ⟨?_, ?_, ?_, ?_, ?_, ?_⟩
  · intro h0
    simp [formatSpeed, h0]
  · intro h0 hlt
    simp [formatSpeed, h0, hlt]
  · intro hge
    have h0 : ¬ b = 0 := by
      intro h
      rw [h] at hge
      norm_num at hge
    simp [formatSpeed, h0, not_lt.mpr hge]
  · norm_num [formatSpeed, jsToFixed1, Prod.ext_iff]
  · norm_num [formatSpeed, jsToFixed1, Prod.ext_iff]
  · simp [formatSpeed]

/-- C7 witness: the theorem instantiated at the concrete input 500×1024. -/
theorem C7_format_speed_witness :
    formatSpeed (500 * 1024) = (500, "KB/s") :=
  (C7_format_speed (500 * 1024) (by norm_num)).2.2.2.1

/-- The throughput gauge value computed from a formatted rate pair
(`App.tsx` lines 406 and 413):
`unit === 'MB/s' ? Math.round(val * 8) : Math.round(val / 128)`. -/
def gaugeValue (p : ℚ × String) : ℤ :=
  if p.2 == "MB/s" then jsRound (p.1 * 8) else jsRound (p.1 / 128)

/-- The download gauge as wired in the view: the gauge of the formatted
last download rate. -/
def downloadGaugeValue (bytesPerSec : ℚ) : ℤ :=
  gaugeValue (formatSpeed bytesPerSec)

/-- C8: the gauge value is round(value × 8) when the unit is "MB/s" and
round(value / 128) otherwise; in particular `{2.0, "MB/s"}` maps to 16 and
`{256.0, "KB/s"}` maps to 2. -/
theorem C8_gauge_mapping (v : ℚ) (u : String) :
    (u = "MB/s" → gaugeValue (v, u) = jsRound (v * 8)) ∧
    (¬ u = "MB/s" → gaugeValue (v, u) = jsRound (v / 128)) ∧
    gaugeValue (2, "MB/s") = 16 ∧
    gaugeValue (256, "KB/s") = 2 ∧
    downloadGaugeValue (2 * 1024 * 1024) = 16 := by
  refine ⟨?_, ?_, ?_, ?_, ?_⟩
  · intro hu
    simp [gaugeValue, hu]
  · intro hu
    simp [gaugeValue, hu]
  · norm_num [gaugeValue, jsRound]
  · norm_num [gaugeValue, jsRound]
    decide
  · norm_num [downloadGaugeValue, formatSpeed, jsToFixed1, gaugeValue, jsRound]

/-- C8 witness: the theorem instantiated at the pair `{2.0, "MB/s"}`. -/
theorem C8_gauge_mapping_witness :
    gaugeValue (2, "MB/s") = jsRound (2 * 8) :=
  (C8_gauge_mapping 2 "MB/s").1 rfl

/-- A per-interface rate-statistics entry from `si.networkStats`: the fields
the application reads. -/
structure NetStat where
  iface : String
  rx_sec : ℚ
  tx_sec : ℚ
deriving DecidableEq, Repr

/-- Environment of the `get-network-usage` handler: outcomes of the default
interface lookup, the stats query for that interface, and the stats query
for all interfaces. -/
structure UsageEnv where
  networkInterfaceDefault : Except Unit String
  networkStatsDefault : Except Unit (List NetStat)
  networkStatsAll : Except Unit (List NetStat)

/-- The predicate of the fallback scan (`main.ts` line 146):
`s.rx_sec > 0 || s.tx_sec > 0`. -/
def hasNonzeroRate (s : NetStat) : Bool :=
  decide (0 < s.rx_sec) || decide (0 < s.tx_sec)

/-- The `get-network-usage` handler (`main.ts` lines 135-151): the first
entry of the default interface's stats when available, else the first
all-interfaces entry with a nonzero rate, else the first entry, else
`null`; every thrown error is caught and collapses to `null`. -/
def getNetworkUsage (env : UsageEnv) : Option NetStat :=
  match env.networkInterfaceDefault with
  | .error _ => none
  | .ok _ =>
    match env.networkStatsDefault with
    | .error _ => none
    | .ok stats =>
      match stats with
      | s :: _ => some s
      | [] =>
        match env.networkStatsAll with
        | .error _ => none
        | .ok allStats =>
          match allStats.find? hasNonzeroRate with
          | some s => some s
          | none => allStats.head?

lemma find?_append_first {α : Type} (p : α → Bool) (l₁ l₂ : List α) (x : α)
    (h₁ : ∀ y ∈ l₁, p y = false) (hx : p x = true) :
    List.find? p (l₁ ++ x :: l₂) = some x := by
  induction l₁ with
  | nil => simp [List.find?, hx]
  | cons a l ih =>
    have ha : p a = false := h₁ a (by simp)
    have ih' := ih (fun y hy => h₁ y (by simp [hy]))
    simp [List.find?, ha, ih']

/-- C6: the usage handler returns the first entry of the default
interface's stats when available; when that list is empty it returns the
first all-interfaces entry with a nonzero receive or transmit rate, else
the first available entry (`head?`, which is `null` on an empty list); any
error in the queries yields `null`; the handler is a total function and
never throws. -/
theorem C6_network_usage_fallbacks (env : UsageEnv) :
    (∀ dn s rest, env.networkInterfaceDefault = .ok dn →
      env.networkStatsDefault = .ok (s :: rest) →
      getNetworkUsage env = some s) ∧
    (∀ dn l₁ x l₂, env.networkInterfaceDefault = .ok dn →
      env.networkStatsDefault = .ok [] →
      env.networkStatsAll = .ok (l₁ ++ x :: l₂) →
      (∀ y ∈ l₁, hasNonzeroRate y = false) → hasNonzeroRate x = true →
      getNetworkUsage env = some x) ∧
    (∀ dn allStats, env.networkInterfaceDefault = .ok dn →
      env.networkStatsDefault = .ok [] →
      env.networkStatsAll = .ok allStats →
      (∀ y ∈ allStats, hasNonzeroRate y = false) →
      getNetworkUsage env = allStats.head?) ∧
    (env.networkInterfaceDefault = .error () → getNetworkUsage env = none) ∧
    (env.networkStatsDefault = .error () → getNetworkUsage env = none) ∧
    (env.networkStatsDefault = .ok [] → env.networkStatsAll = .error () →
      getNetworkUsage env = none) := by
  refine ⟨?_, ?_, ?_, ?_, ?_, ?_⟩
  · intro dn s rest hdn hs
    simp [getNetworkUsage, hdn, hs]
  · intro dn l₁ x l₂ hdn hs hall hnone hx
    have hfind := find?_append_first hasNonzeroRate l₁ l₂ x hnone hx
    simp [getNetworkUsage, hdn, hs, hall, hfind]
  · intro dn allStats hdn hs hall hnone
    have hfind : allStats.find? hasNonzeroRate = none :=
      List.find?_eq_none.mpr (fun y hy => by simp [hnone y hy])
    simp [getNetworkUsage, hdn, hs, hall, hfind]
  · intro h
    simp [getNetworkUsage, h]
  · intro h
    cases hdn : env.networkInterfaceDefault with
    | error e => simp [getNetworkUsage, hdn]
    | ok dn => simp [getNetworkUsage, hdn, h]
  · intro hs hall
    cases hdn : env.networkInterfaceDefault with
    | error e => simp [getNetworkUsage, hdn]
    | ok dn => simp [getNetworkUsage, hdn, hs, hall]

/-- C6 witness: a concrete environment exercising the nonzero-rate
fallback. -/
theorem C6_network_usage_fallbacks_witness :
    getNetworkUsage
      ⟨.ok "eth0", .ok [],
       .ok [⟨"lo", 0, 0⟩, ⟨"eth0", 5, 1⟩, ⟨"wlan0", 2, 0⟩]⟩ =
      some ⟨"eth0", 5, 1⟩ :=
  (C6_network_usage_fallbacks
      ⟨.ok "eth0", .ok [],
       .ok [⟨"lo", 0, 0⟩, ⟨"eth0", 5, 1⟩, ⟨"wlan0", 2, 0⟩]⟩).2.1
    "eth0" [⟨"lo", 0, 0⟩] ⟨"eth0", 5, 1⟩ [⟨"wlan0", 2, 0⟩]
    rfl rfl rfl (by decide) (by decide)

/-- One sample of the renderer's usage history (`App.tsx` line 126):
`{ label: now, rx: rxKB, tx: txKB }`.  The wall-clock label is modelled as
a `Nat` time stamp at the label's display resolution. -/
structure UsageEntry where
  label : Nat
  rx : ℚ
  tx : ℚ
deriving DecidableEq, Repr

/-- JavaScript `slice(-n)`: the last `n` elements (the whole list when it
is shorter). -/
def sliceLast (n : Nat) (l : List UsageEntry) : List UsageEntry :=
  l.drop (l.length - n)

/-- Building the appended sample from a usage result at wall-clock time
`now` (`App.tsx` lines 122-126): byte rates are converted to KB/s. -/
def mkUsageEntry (now : Nat) (u : NetStat) : UsageEntry :=
  { label := now, rx := u.rx_sec / 1024, tx := u.tx_sec / 1024 }

/-- The history update in `setUsageHistory` (`App.tsx` lines 126-127):
`[...prev, sample].slice(-40)`. -/
def appendUsage (prev : List UsageEntry) (e : UsageEntry) : List UsageEntry :=
  sliceLast 40 (prev ++ [e])

/-- Entries appear with non-decreasing time labels. -/
def labelsSorted (l : List UsageEntry) : Prop :=
  l.Pairwise (fun a b => a.label ≤ b.label)

/-- C9: after every history update the usage history has length at most
40; when the previous history is ordered by time label and the new sample
is no older than every retained entry, the updated history is still
ordered; and appending to a full history of 40 entries evicts exactly the
oldest entry (the result is the tail of the old history followed by the
new sample — a pure sliding window). -/
theorem C9_usage_history_window :
    (∀ prev e, (appendUsage prev e).length ≤ 40) ∧
    (∀ prev e, labelsSorted prev → (∀ x ∈ prev, x.label ≤ e.label) →
      labelsSorted (appendUsage prev e)) ∧
    (∀ prev e, prev.length = 40 → appendUsage prev e = prev.tail ++ [e]) := by
  refine ⟨?_, ?_, ?_⟩
  · intro prev e
    simp only [appendUsage, sliceLast, List.length_drop, List.length_append,
      List.length_cons, List.length_nil]
    omega
  · intro prev e hsorted hle
    have hall : labelsSorted (prev ++ [e]) := by
      rw [labelsSorted, List.pairwise_append]
      refine ⟨hsorted, List.pairwise_singleton _ _, ?_⟩
      intro a ha b hb
      rw [List.mem_singleton] at hb
      subst hb
      exact hle a ha
    exact List.Pairwise.sublist (List.drop_sublist _ _) hall
  · intro prev e hlen
    have h1 : (1 : Nat) ≤ prev.length := by omega
    simp only [appendUsage, sliceLast, List.length_append, List.length_cons,
      List.length_nil, hlen]
    rw [show 40 + 1 + 0 - 40 = 1 by rfl,
      List.drop_append_of_le_length h1, List.drop_one]

/-- C9 witness: the theorem instantiated on a concrete full history of 40
entries and on a concrete ordered history. -/
theorem C9_usage_history_window_witness :
    (appendUsage (List.replicate 40 ⟨0, 0, 0⟩) ⟨1, 2, 3⟩).length ≤ 40 ∧
    labelsSorted (appendUsage [⟨0, 1, 1⟩] ⟨1, 2, 3⟩) ∧
    appendUsage (List.replicate 40 ⟨0, 0, 0⟩) ⟨1, 2, 3⟩ =
      (List.replicate 40 (⟨0, 0, 0⟩ : UsageEntry)).tail ++ [⟨1, 2, 3⟩] :=
  ⟨C9_usage_history_window.1 (List.replicate 40 ⟨0, 0, 0⟩) ⟨1, 2, 3⟩,
   C9_usage_history_window.2.1 [⟨0, 1, 1⟩] ⟨1, 2, 3⟩
     (List.pairwise_singleton _ _) (by simp),
   C9_usage_history_window.2.2 (List.replicate 40 ⟨0, 0, 0⟩) ⟨1, 2, 3⟩
     (by simp)⟩

/-- Progress of one `fetchStats` invocation (`App.tsx` lines 111-133): not
running, suspended at the `getActiveConnection` await, or suspended at the
`getNetworkUsage` await.  At most one invocation is modelled in flight. -/
inductive TickPhase where
  | idle
  | awaitingConn
  | awaitingUsage
deriving DecidableEq, Repr

/-- The aggregator's state: the `isPolling` liveness ref, the `connection`
and `usageHistory` React state, and the phase of the in-flight tick. -/
structure RendererState where
  isPolling : Bool
  connection : Option Snapshot
  usageHistory : List UsageEntry
  phase : TickPhase
deriving DecidableEq, Repr

/-- Events of the aggregator: a tick of `fetchStats` begins (running the
body up to the first await — in particular the `if (!isPolling.current)
return` entry check), the connection await resolves, the usage await
resolves at wall-clock time `now`, or the effect cleanup (teardown) runs
and clears the liveness flag.  Crucially, faithful to the source, the two
resolution steps apply their results without consulting `isPolling`: the
flag is read only in the entry check. -/
inductive RenderEv where
  | tickStart
  | connArrive (conn : Option Snapshot)
  | usageArrive (usage : Option NetStat) (now : Nat)
  | teardown
deriving Repr

/-- One step of the aggregator. -/
def renderStep (s : RendererState) (e : RenderEv) : RendererState :=
  match e with
  | .tickStart =>
    match s.phase with
    | .idle => if s.isPolling then { s with phase := .awaitingConn } else s
    | _ => s
  | .connArrive conn =>
    match s.phase with
    | .awaitingConn =>
      match conn with
      | some c => { s with connection := some c, phase := .awaitingUsage }
      | none => { s with phase := .awaitingUsage }
    | _ => s
  | .usageArrive usage now =>
    match s.phase with
    | .awaitingUsage =>
      match usage with
      | some u =>
        { s with
          usageHistory := appendUsage s.usageHistory (mkUsageEntry now u),
          phase := .idle }
      | none => { s with phase := .idle }
    | _ => s
  | .teardown => { s with isPolling := false }

/-- Run a sequence of aggregator events. -/
def renderRun (tr : List RenderEv) (s : RendererState) : RendererState :=
  tr.foldl renderStep s

/-- The state on mount (`App.tsx` lines 94-101, 153-154). -/
def renderInit : RendererState :=
  { isPolling := true, connection := none, usageHistory := [], phase := .idle }

/-- A concrete snapshot used as a late-arriving connection result. -/
def lateSnapshot : Snapshot :=
  { ssid := "HomeWifi", type := "wireless", status := "up",
    ip4 := "192.168.1.2", speed := 100, signal_level := some 80,
    security := some "WPA2", mac := some "aa:bb", iface := some "wlan0" }

/-- C3 counterexample: a tick passes its entry check, teardown then clears
the liveness flag, and the tick's connection result still mutates the
connection state afterwards — the code checks `isPolling` only at tick
entry, not before applying an awaited result, so a result of a poll issued
before teardown is applied after teardown. -/
theorem C3_counterexample :
    (renderRun [.tickStart, .teardown] renderInit).isPolling = false ∧
    (renderStep (renderRun [.tickStart, .teardown] renderInit)
        (.connArrive (some lateSnapshot))).connection ≠
      (renderRun [.tickStart, .teardown] renderInit).connection := by
  constructor
  · rfl
  · intro h
    simp [renderRun, renderStep, renderInit, lateSnapshot] at h

/-- C3 amended: the liveness flag is checked at tick entry, so a tick that
begins after teardown (flag already false, no tick in flight) issues no
request and applies no result: the state is left entirely unchanged. -/
theorem C3_amended_entry_check (s : RendererState) (c : Option Snapshot)
    (u : Option NetStat) (now : Nat)
    (hpoll : s.isPolling = false) (hphase : s.phase = .idle) :
    renderRun [.tickStart, .connArrive c, .usageArrive u now] s = s := by
  have h1 : renderStep s .tickStart = s := by
    simp [renderStep, hphase, hpoll]
  have h2 : renderStep s (.connArrive c) = s := by
    simp [renderStep, hphase]
  have h3 : renderStep s (.usageArrive u now) = s := by
    simp [renderStep, hphase]
  simp [renderRun, List.foldl_cons, h1, h2, h3]

/-- C3 amended witness: a torn-down idle state absorbs a full tick with no
change. -/
theorem C3_amended_entry_check_witness :
    renderRun [.tickStart, .connArrive (some lateSnapshot),
        .usageArrive (some ⟨"wlan0", 5, 1⟩) 7]
      ⟨false, none, [], .idle⟩ = ⟨false, none, [], .idle⟩ :=
  C3_amended_entry_check ⟨false, none, [], .idle⟩ (some lateSnapshot)
    (some ⟨"wlan0", 5, 1⟩) 7 rfl rfl

end WifiMonitor
